import Mathlib

/-!
Verification development for the `ai-legal-assistant` repository
(`app.py` and `tools/ipc_sections_search_tool.py`).

Python strings are modelled as Lean `String`s, with the Python string
operations the code uses (`.lower()`, `.strip()`, `in`, `.startswith`)
defined below over the underlying character lists.  Python's `.lower()`
is modelled on the ASCII letters (every keyword in the classifier is
ASCII), and `.strip()` strips the whitespace characters recognised by
`Char.isWhitespace` (space, tab, carriage return, newline).
-/

/-- ASCII lowercasing of a single character: model of what Python
`str.lower` does on the basic latin letters. -/
def pyLowerChar : Char → Char
  | 'A' => 'a' | 'B' => 'b' | 'C' => 'c' | 'D' => 'd' | 'E' => 'e'
  | 'F' => 'f' | 'G' => 'g' | 'H' => 'h' | 'I' => 'i' | 'J' => 'j'
  | 'K' => 'k' | 'L' => 'l' | 'M' => 'm' | 'N' => 'n' | 'O' => 'o'
  | 'P' => 'p' | 'Q' => 'q' | 'R' => 'r' | 'S' => 's' | 'T' => 't'
  | 'U' => 'u' | 'V' => 'v' | 'W' => 'w' | 'X' => 'x' | 'Y' => 'y'
  | 'Z' => 'z'
  | c => c

/-- Model of Python `str.lower` on a character list. -/
def pyLower (l : List Char) : List Char := l.map pyLowerChar

/-- Model of Python `str.strip()`: drop leading and trailing whitespace. -/
def pyStrip (l : List Char) : List Char :=
  ((l.dropWhile Char.isWhitespace).reverse.dropWhile Char.isWhitespace).reverse

/-- Model of Python `str.startswith`: `startsWithList needle hay` is true
iff `needle` is a prefix of `hay`. -/
def startsWithList : List Char → List Char → Bool
  | [], _ => true
  | _ :: _, [] => false
  | a :: as, b :: bs => a == b && startsWithList as bs

/-- Model of the Python `in` operator on strings: `containsList needle hay`
is true iff `needle` occurs as a contiguous substring of `hay`. -/
def containsList (needle : List Char) : List Char → Bool
  | [] => needle.isEmpty
  | b :: bs => startsWithList needle (b :: bs) || containsList needle bs

/-- The `legal_keywords` list of `is_legal_question` (app.py lines 50-99). -/
def legal_keywords : List String := [
  "law", "legal", "court", "judge", "lawyer", "attorney", "advocate",
  "case", "lawsuit", "litigation", "trial", "hearing", "verdict",
  "contract", "agreement", "breach", "terms", "clause", "violation",
  "binding", "negotiation", "dispute", "settlement",
  "criminal", "crime", "arrest", "police", "bail", "prison", "jail",
  "theft", "fraud", "assault", "murder", "robbery", "evidence",
  "investigation", "charges", "guilty", "innocent", "conviction",
  "civil", "plaintiff", "defendant", "damages", "compensation",
  "negligence", "liability", "tort", "injury", "accident",
  "property", "real estate", "land", "ownership", "title", "deed",
  "mortgage", "lease", "rent", "tenant", "landlord", "eviction",
  "divorce", "marriage", "custody", "alimony", "adoption", "inheritance",
  "will", "estate", "guardian", "family court",
  "corporation", "company", "business", "partnership", "tax",
  "intellectual property", "patent", "trademark", "copyright",
  "employment", "workplace", "discrimination", "harassment",
  "summon", "notice", "petition", "motion", "appeal", "jurisdiction",
  "statute", "regulation", "ordinance", "constitution", "rights",
  "obligation", "duty", "penalty", "fine", "sentence",
  "ipc", "crpc", "cpc", "indian penal code", "high court", "supreme court",
  "sessions court", "magistrate", "fir", "chargesheet", "bail",
  "anticipatory bail", "interim order", "stay order", "injunction",
  "legal advice", "legal help", "legal issue", "legal problem",
  "legal matter", "legal question", "legal rights", "legal action",
  "legal proceeding", "legal document", "legal compliance",
  "can i sue", "is it legal", "what are my rights", "legal procedure",
  "court process", "how to file", "legal requirement", "violation of"]

/-- The `legal_patterns` list of `is_legal_question` (app.py lines 102-106). -/
def legal_patterns : List String := [
  "what is the law", "according to law", "legally speaking",
  "court order", "legal document", "file a case", "legal action",
  "my rights", "legal procedure", "court hearing", "legal advice"]

/-- The `legal_question_starts` list of `is_legal_question`
(app.py lines 119-123). -/
def legal_question_starts : List String := [
  "can i legally", "is it illegal", "what does the law say",
  "according to indian law", "under which section", "legal validity",
  "court procedure", "how to file", "legal notice", "summon received"]

/-- Shallow embedding of `is_legal_question` (app.py lines 39-129).
The Python guard `if not question or len(question.strip()) < 3` is the
first branch; `question_lower = question.lower().strip()` is the
normalisation; the three loops over `legal_keywords`, `legal_patterns`
and `legal_question_starts` are the three `List.any` tests. -/
def is_legal_question (question : String) : Bool :=
  if question.data.isEmpty ∨ (pyStrip question.data).length < 3 then false
  else
    let question_lower := pyStrip (pyLower question.data)
    if legal_keywords.any (fun k => containsList k.data question_lower) then true
    else if legal_patterns.any (fun p => containsList p.data question_lower) then true
    else if legal_question_starts.any (fun s => startsWithList s.data question_lower) then true
    else false

/-- Every matcher string used by the classifier is nonempty, starts and
ends with a non-whitespace character, and has at least 3 non-whitespace
characters. -/
def goodToken (k : List Char) : Bool :=
  match k.head?, k.getLast? with
  | some c, some d =>
      !c.isWhitespace && !d.isWhitespace
        && decide (3 ≤ k.countP (fun ch => !ch.isWhitespace))
  | _, _ => false

/-! ### Chat history persistence (app.py `save_chat_message`,
`load_messages_by_conversation_id`)

The sqlite `history` table is modelled as an append-only list of rows;
the `timestamp DATETIME DEFAULT CURRENT_TIMESTAMP` column is modelled by
a monotone clock carried in the database state, and the SQL
`ORDER BY timestamp ASC` by a stable merge sort on the timestamp. -/

structure HistoryRow where
  username : String
  role : String
  conversation_id : String
  timestamp : Nat
  is_user_message : Bool
  message : String
deriving DecidableEq

structure ChatDB where
  history : List HistoryRow
  clock : Nat
deriving DecidableEq

/-- One chat message as returned by `load_messages_by_conversation_id`
(the Python dict with keys `role` and `content`). -/
structure ChatMessage where
  role : String
  content : String
deriving DecidableEq

/-- Shallow embedding of `save_chat_message` (app.py lines 205-211):
`INSERT INTO history (...) VALUES (...)`, with the row timestamped by the
database clock. -/
def save_chat_message (db : ChatDB) (username role conversation_id : String)
    (is_user_message : Bool) (message : String) : ChatDB :=
  { db with history :=
      db.history ++ [⟨username, role, conversation_id, db.clock, is_user_message, message⟩] }

/-- Shallow embedding of `load_messages_by_conversation_id` (app.py lines
243-249): `SELECT is_user_message, message FROM history WHERE
conversation_id=? ORDER BY timestamp ASC` followed by the dict
comprehension mapping the flag to "user"/"assistant". -/
def load_messages_by_conversation_id (db : ChatDB) (conversation_id : String) :
    List ChatMessage :=
  (((db.history.filter (fun r => r.conversation_id == conversation_id)).mergeSort
      (fun a b => decide (a.timestamp ≤ b.timestamp))).map
    (fun r => ⟨if r.is_user_message then "user" else "assistant", r.message⟩))

/-- Database well-formedness: every stored timestamp is at most the clock,
and rows were appended in timestamp order. -/
def ChatDB.WF (db : ChatDB) : Prop :=
  (∀ r ∈ db.history, r.timestamp ≤ db.clock)
  ∧ db.history.Pairwise (fun a b => a.timestamp ≤ b.timestamp)

/-! ### User accounts (app.py `make_hash`, `register_user`, `login_user`)

`make_hash` is `hashlib.sha256(password.encode()).hexdigest()`; SHA-256
is implemented below over lists of byte values, with 32-bit words
represented as natural numbers reduced modulo `2 ^ 32`. -/

/-- UTF-8 encoding of one character (Python `str.encode()`), as byte
values. -/
def utf8EncodeChar (c : Char) : List Nat :=
  let n := c.toNat
  if n < 128 then [n]
  else if n < 2048 then [192 + n / 64, 128 + n % 64]
  else if n < 65536 then [224 + n / 4096, 128 + (n / 64) % 64, 128 + n % 64]
  else [240 + n / 262144, 128 + (n / 4096) % 64, 128 + (n / 64) % 64, 128 + n % 64]

/-- UTF-8 bytes of a string. -/
def utf8Bytes (s : String) : List Nat :=
  s.data.foldr (fun c acc => utf8EncodeChar c ++ acc) []

/-- Rotate right by `n` bits, on words represented as naturals below `2 ^ 32`. -/
def rotr32 (n x : Nat) : Nat :=
  ((x >>> n) ||| (x <<< (32 - n))) % 4294967296

def shaSmallSigma0 (x : Nat) : Nat := (rotr32 7 x) ^^^ (rotr32 18 x) ^^^ (x >>> 3)

def shaSmallSigma1 (x : Nat) : Nat := (rotr32 17 x) ^^^ (rotr32 19 x) ^^^ (x >>> 10)

def shaBigSigma0 (x : Nat) : Nat := (rotr32 2 x) ^^^ (rotr32 13 x) ^^^ (rotr32 22 x)

def shaBigSigma1 (x : Nat) : Nat := (rotr32 6 x) ^^^ (rotr32 11 x) ^^^ (rotr32 25 x)

/-- The 64 SHA-256 round constants. -/
def shaK : List Nat := [
  1116352408, 1899447441, 3049323471, 3921009573, 961987163, 1508970993,
  2453635748, 2870763221, 3624381080, 310598401, 607225278, 1426881987,
  1925078388, 2162078206, 2614888103, 3248222580, 3835390401, 4022224774,
  264347078, 604807628, 770255983, 1249150122, 1555081692, 1996064986,
  2554220882, 2821834349, 2952996808, 3210313671, 3336571891, 3584528711,
  113926993, 338241895, 666307205, 773529912, 1294757372, 1396182291,
  1695183700, 1986661051, 2177026350, 2456956037, 2730485921, 2820302411,
  3259730800, 3345764771, 3516065817, 3600352804, 4094571909, 275423344,
  430227734, 506948616, 659060556, 883997877, 958139571, 1322822218,
  1537002063, 1747873779, 1955562222, 2024104815, 2227730452, 2361852424,
  2428436474, 2756734187, 3204031479, 3329325298]

/-- The SHA-256 initial hash value. -/
def shaH0 : List Nat := [
  1779033703, 3144134277, 1013904242, 2773480762,
  1359893119, 2600822924, 528734635, 1541459225]

/-- Big-endian byte expansion of `n` into `k` bytes. -/
def beBytes : Nat → Nat → List Nat
  | 0, _ => []
  | k + 1, n => beBytes k (n / 256) ++ [n % 256]

/-- SHA-256 padding: append `0x80`, zero bytes up to 56 mod 64, then the
bit length as 8 big-endian bytes. -/
def shaPad (msg : List Nat) : List Nat :=
  let len := msg.length
  let zeros := (119 - len % 64) % 64
  msg ++ [0x80] ++ List.replicate zeros 0 ++ beBytes 8 (len * 8)

set_option linter.unusedVariables false in
/-- Split the padded message into 64-byte blocks. -/
def toBlocks (l : List Nat) : List (List Nat) :=
  if h : l = [] then []
  else l.take 64 :: toBlocks (l.drop 64)
termination_by l.length
decreasing_by
  have hpos : 0 < l.length := List.length_pos.mpr h
  simp [List.length_drop]
  omega

/-- Pack 4 consecutive big-endian bytes into 32-bit words. -/
def toWords : List Nat → List Nat
  | b0 :: b1 :: b2 :: b3 :: rest => (((b0 * 256 + b1) * 256 + b2) * 256 + b3) :: toWords rest
  | _ => []

/-- Extend the 16 message-schedule words to 64. -/
def extendWords : Nat → List Nat → List Nat
  | 0, w => w
  | fuel + 1, w =>
    let i := w.length
    extendWords fuel (w ++
      [(w.getD (i - 16) 0 + shaSmallSigma0 (w.getD (i - 15) 0)
        + w.getD (i - 7) 0 + shaSmallSigma1 (w.getD (i - 2) 0)) % 4294967296])

structure ShaState where
  a : Nat
  b : Nat
  c : Nat
  d : Nat
  e : Nat
  f : Nat
  g : Nat
  h : Nat

/-- One SHA-256 compression round. -/
def shaRound (s : ShaState) (kw : Nat × Nat) : ShaState :=
  let ch := (s.e &&& s.f) ^^^ ((4294967295 ^^^ s.e) &&& s.g)
  let t1 := (s.h + shaBigSigma1 s.e + ch + kw.1 + kw.2) % 4294967296
  let mj := (s.a &&& s.b) ^^^ (s.a &&& s.c) ^^^ (s.b &&& s.c)
  let t2 := (shaBigSigma0 s.a + mj) % 4294967296
  ⟨(t1 + t2) % 4294967296, s.a, s.b, s.c, (s.d + t1) % 4294967296, s.e, s.f, s.g⟩

/-- Process one 64-byte block, updating the running hash (8 words). -/
def shaBlock (hs : List Nat) (block : List Nat) : List Nat :=
  let w := extendWords 48 (toWords block)
  let s0 : ShaState := ⟨hs.getD 0 0, hs.getD 1 0, hs.getD 2 0, hs.getD 3 0,
    hs.getD 4 0, hs.getD 5 0, hs.getD 6 0, hs.getD 7 0⟩
  let s := (shaK.zip w).foldl shaRound s0
  [(hs.getD 0 0 + s.a) % 4294967296, (hs.getD 1 0 + s.b) % 4294967296,
   (hs.getD 2 0 + s.c) % 4294967296, (hs.getD 3 0 + s.d) % 4294967296,
   (hs.getD 4 0 + s.e) % 4294967296, (hs.getD 5 0 + s.f) % 4294967296,
   (hs.getD 6 0 + s.g) % 4294967296, (hs.getD 7 0 + s.h) % 4294967296]

/-- SHA-256 of a byte list, as the final 8 hash words. -/
def sha256Words (msg : List Nat) : List Nat :=
  (toBlocks (shaPad msg)).foldl shaBlock shaH0

def hexDigitChar (n : Nat) : Char :=
  if n < 10 then Char.ofNat (48 + n) else Char.ofNat (87 + n)

/-- Lowercase hexadecimal rendering of one 32-bit word. -/
def wordHex (n : Nat) : List Char :=
  [hexDigitChar ((n / 0x10000000) % 16), hexDigitChar ((n / 0x1000000) % 16),
   hexDigitChar ((n / 0x100000) % 16), hexDigitChar ((n / 0x10000) % 16),
   hexDigitChar ((n / 0x1000) % 16), hexDigitChar ((n / 0x100) % 16),
   hexDigitChar ((n / 16) % 16), hexDigitChar (n % 16)]

/-- Shallow embedding of `make_hash` (app.py lines 153-154):
`hashlib.sha256(password.encode()).hexdigest()`. -/
def make_hash (password : String) : String :=
  String.mk ((sha256Words (utf8Bytes password)).foldr (fun w acc => wordHex w ++ acc) [])

structure UserRow where
  username : String
  password : String
  role : String
  email : Option String
deriving DecidableEq

structure UsersDB where
  users : List UserRow
deriving DecidableEq

/-- Shallow embedding of `register_user` (app.py lines 184-194):
`INSERT INTO users (username, password, role, email) VALUES (?, ?, ?, ?)`
with `make_hash(password)`; the `username TEXT UNIQUE` constraint makes
the insert fail (sqlite3.IntegrityError, reported to the user) when the
username is already present.  Returns the new table and whether the
insert succeeded. -/
def register_user (db : UsersDB) (username password role : String)
    (email : Option String) : UsersDB × Bool :=
  if db.users.any (fun u => u.username == username) then (db, false)
  else ({ users := db.users ++ [⟨username, make_hash password, role, email⟩] }, true)

/-- Shallow embedding of `login_user` (app.py lines 196-203):
`SELECT role, email FROM users WHERE username=? AND password=?` with
`make_hash(password)`, returning the first matching row or `None`. -/
def login_user (db : UsersDB) (username password : String) :
    Option (String × Option String) :=
  (db.users.find? (fun u => u.username == username && u.password == make_hash password)).map
    (fun u => (u.role, u.email))

/-! ### Reminder e-mails (app.py `send_email`, `save_email_details`,
`send_reminder_emails`)

SMTP configuration comes from environment variables; `os.getenv` results
are modelled as `Option String`, with Python truthiness (`None` and the
empty string are falsy).  The SMTP transport is an oracle that either
completes or raises; `sent_emails.txt` is the append-only log list.
`deadline_date.strftime(...)` is modelled by passing the formatted
deadline string. -/

def truthyEnv : Option String → Bool
  | none => false
  | some s => !s.isEmpty

structure SmtpConfig where
  sender_email : Option String
  sender_password : Option String

inductive SmtpOutcome
  | ok
  | raises

structure EmailLogEntry where
  to_email : String
  subject : String
  body : String
deriving DecidableEq

/-- Shallow embedding of `send_email` (app.py lines 286-320) together
with `save_email_details` (lines 322-329).  Without credentials the send
is simulated: the message is appended to the log and `True` is returned.
With credentials, the message is appended to the log and `True` is
returned whether the SMTP submission completed or raised (the `except`
branch also logs and returns `True`). -/
def send_email (cfg : SmtpConfig) (outcome : SmtpOutcome) (log : List EmailLogEntry)
    (to_email subject body : String) : Bool × List EmailLogEntry :=
  if !truthyEnv cfg.sender_email || !truthyEnv cfg.sender_password then
    (true, log ++ [⟨to_email, subject, body⟩])
  else
    match outcome with
    | SmtpOutcome.ok => (true, log ++ [⟨to_email, subject, body⟩])
    | SmtpOutcome.raises => (true, log ++ [⟨to_email, subject, body⟩])

/-- Shallow embedding of `send_reminder_emails` (app.py lines 331-366):
two fixed-template messages are built and sent, and the result is the
conjunction of the two send results.  `deadline_str` is
`deadline_date.strftime("%B %d, %Y")`. -/
def send_reminder_emails (cfg : SmtpConfig) (o1 o2 : SmtpOutcome)
    (log : List EmailLogEntry)
    (case_number client_email lawyer_email deadline_str reminder_message : String) :
    Bool × List EmailLogEntry :=
  let extra := if !reminder_message.isEmpty
    then "📝 Additional Message: " ++ reminder_message else ""
  let client_subject := "📅 Case " ++ case_number ++ " - Deadline Reminder"
  let client_body := "Dear Client,\n\nThis is a reminder regarding your case:\n\n📋 Case Number: "
    ++ case_number ++ "\n📅 Deadline: " ++ deadline_str ++ "\n\n" ++ extra
    ++ "\n\nPlease ensure all required documents and actions are completed before the deadline.\n\nBest regards,\nLegal Assistant System\n"
  let lawyer_subject := "⚖ Case " ++ case_number ++ " - Deadline Reminder"
  let lawyer_body := "Dear Lawyer,\n\nThis is a reminder regarding case:\n\n📋 Case Number: "
    ++ case_number ++ "\n📅 Deadline: " ++ deadline_str ++ "\n👤 Client: " ++ client_email
    ++ "\n\n" ++ extra
    ++ "\n\nPlease ensure all case preparations are completed before the deadline.\n\nBest regards,\nLegal Assistant System\n"
  let client := send_email cfg o1 log client_email client_subject client_body
  let lawyer := send_email cfg o2 client.2 lawyer_email lawyer_subject lawyer_body
  (client.1 && lawyer.1, lawyer.2)

/-! ### PDF text extraction (app.py `extract_text_from_pdf`)

Each page's `page.extract_text()` result is modelled as either extracted
text (`Option String`: `None` for no text layer) or a raised exception,
which aborts the loop; the surrounding `try/except` reports the error to
the user and returns whatever text had been accumulated, so the function
never raises to its caller.  The OCR service result is passed as an
oracle string. -/

inductive PageRead
  | text (t : Option String)
  | raised

/-- The accumulation loop `for page in pdf.pages: ...` — returns the
accumulated text and whether an exception was raised. -/
def runPages : List PageRead → String → String × Bool
  | [], acc => (acc, false)
  | PageRead.text t :: rest, acc =>
    match t with
    | some page_text =>
      if page_text.isEmpty then runPages rest acc
      else runPages rest (acc ++ page_text ++ "\n")
    | none => runPages rest acc
  | PageRead.raised :: _, acc => (acc, true)

/-- Shallow embedding of `extract_text_from_pdf` (app.py lines 403-417):
local text-layer extraction page by page; if that yields only whitespace
and an OCR key is configured, the OCR result replaces the text; any
exception is caught and the accumulated text returned. -/
def extract_text_from_pdf (ocr_api_key : Option String) (pages : List PageRead)
    (ocr_text : String) : String :=
  let r := runPages pages ""
  if r.2 then r.1
  else if (pyStrip r.1.data).isEmpty && truthyEnv ocr_api_key then ocr_text
  else r.1

/-! ### Answer generator (app.py `ask_groq`) and the chat caller

The remote completion endpoint is an oracle mapping a model identifier
(together with the question and context embedded in the request) to
either a returned answer or a raised exception (`Option String`).  The
Groq client is present iff a `GROQ_API_KEY` was configured. -/

/-- The fixed ordered model list of `ask_groq` (app.py line 422). -/
def groq_models : List String := ["llama-3.1-70b-specdec", "llama-3.1-8b-instant"]

/-- The `for m in [...]` loop body: return the first model whose call
succeeds, else fall through. -/
def tryModels (call : String → Option String) : List String → Option String
  | [] => none
  | m :: ms =>
    match call m with
    | some r => some r
    | none => tryModels call ms

/-- Shallow embedding of `ask_groq` (app.py lines 419-436): `None` when
no client is configured; otherwise the models are tried in order and the
first successful completion is returned, `None` if every call raises. -/
def ask_groq (groq_client : Bool) (call : String → String → String → Option String)
    (question context_text : String) : Option String :=
  if !groq_client then none
  else tryModels (fun m => call m question context_text) groq_models

/-- The refusal message of `get_non_legal_response` (app.py lines 131-148). -/
def get_non_legal_response : String :=
  "\n🚫 **Please ask a legal question.**\n\nI'm designed to help with legal matters such as:\n- Legal advice and procedures\n- Court cases and documentation  \n- Contract and agreement issues\n- Rights and obligations\n- Legal compliance matters\n- Indian law and regulations\n\nPlease rephrase your question to focus on legal topics.\n\n"

/-- The fallback string of the chat handlers (app.py lines 584 and 655). -/
def groq_fallback_message : String :=
  "Sorry, I couldn't process this legal question right now."

/-- Shallow embedding of the assistant-answer computation of the lawyer
chat handler (app.py lines 579-587; the civilian handler at lines
650-658 is identical up to the context string, which is a parameter
here).  Python's `if not answer` treats both `None` and the empty string
as falsy. -/
def chat_answer (groq_client : Bool) (call : String → String → String → Option String)
    (user_input context_text : String) : String :=
  if is_legal_question user_input then
    match ask_groq groq_client call user_input context_text with
    | some a => if a.isEmpty then groq_fallback_message else a
    | none => groq_fallback_message
  else get_non_legal_response

/-! ### IPC sections search tool (tools/ipc_sections_search_tool.py)

The Chroma vector store is `none` when loading failed at module import;
otherwise it is an oracle from the query and `top_k` to either a raised
exception or a list of documents, each with metadata lookup and page
content. -/

structure IPCDoc where
  metadata : String → Option String
  page_content : String

structure IPCResult where
  section_ : Option String
  section_title : Option String
  chapter : Option String
  chapter_title : Option String
  content : String

/-- Shallow embedding of `search_ipc_sections` (tool lines 47-82):
empty list when the store is uninitialised, the query is empty after
stripping, or the similarity search raises; otherwise the documents are
mapped to result records. -/
def search_ipc_sections
    (vector_db : Option (String → Nat → Except String (List IPCDoc)))
    (query : String) (top_k : Nat) : List IPCResult :=
  match vector_db with
  | none => []
  | some db =>
    if (pyStrip query.data).isEmpty then []
    else
      match db query top_k with
      | Except.error _ => []
      | Except.ok docs => docs.map (fun doc =>
          ⟨doc.metadata "section", doc.metadata "section_title",
           doc.metadata "chapter", doc.metadata "chapter_title", doc.page_content⟩)

/-! ### Bridging lemmas between the boolean string tests and list predicates -/

theorem startsWithList_iff : ∀ (n h : List Char), startsWithList n h = true ↔ n <+: h
  | [], h => by simp [startsWithList]
  | a :: as, [] => by simp [startsWithList]
  | a :: as, b :: bs => by
    simp [startsWithList, startsWithList_iff as bs, List.cons_prefix_cons,
      beq_iff_eq, Bool.and_eq_true]

theorem containsList_iff (n : List Char) : ∀ (h : List Char),
    containsList n h = true ↔ n <:+: h
  | [] => by simp [containsList, List.isEmpty_iff]
  | b :: bs => by
    simp [containsList, startsWithList_iff, containsList_iff n bs,
      List.infix_cons_iff, Bool.or_eq_true]

theorem isWhitespace_pyLowerChar (c : Char) :
    (pyLowerChar c).isWhitespace = c.isWhitespace := by
  unfold pyLowerChar
  split <;> rfl

theorem ws_comp_pyLowerChar :
    (Char.isWhitespace ∘ pyLowerChar) = Char.isWhitespace := by
  funext c
  exact isWhitespace_pyLowerChar c

theorem pyStrip_pyLower (l : List Char) :
    pyStrip (pyLower l) = pyLower (pyStrip l) := by
  unfold pyStrip pyLower
  rw [List.dropWhile_map, ws_comp_pyLowerChar, ← List.map_reverse,
    List.dropWhile_map, ws_comp_pyLowerChar, ← List.map_reverse]

theorem length_pyStrip_pyLower (l : List Char) :
    (pyStrip (pyLower l)).length = (pyStrip l).length := by
  rw [pyStrip_pyLower]
  exact List.length_map _ _

theorem countP_nonWs_pyLower (l : List Char) :
    (pyLower l).countP (fun c => !c.isWhitespace)
      = l.countP (fun c => !c.isWhitespace) := by
  unfold pyLower
  rw [List.countP_map]
  congr 1
  funext c
  simp [Function.comp, isWhitespace_pyLowerChar]

theorem countP_pyStrip_le (p : Char → Bool) (l : List Char) :
    (pyStrip l).countP p ≤ l.countP p := by
  unfold pyStrip
  rw [List.countP_reverse]
  have h1 : List.countP p
        (List.dropWhile Char.isWhitespace (List.dropWhile Char.isWhitespace l).reverse)
      ≤ List.countP p (List.dropWhile Char.isWhitespace l).reverse :=
    List.Sublist.countP_le p (List.dropWhile_sublist Char.isWhitespace)
  have h2 : List.countP p (List.dropWhile Char.isWhitespace l).reverse
      = List.countP p (List.dropWhile Char.isWhitespace l) :=
    List.countP_reverse _ _
  have h3 : List.countP p (List.dropWhile Char.isWhitespace l)
      ≤ List.countP p l :=
    List.Sublist.countP_le p (List.dropWhile_sublist Char.isWhitespace)
  omega

/-- A nonempty needle whose first character fails `p` survives `dropWhile p`
on the haystack. -/
theorem infix_dropWhile_of_head {α : Type} (p : α → Bool) {c : α} {cs l : List α}
    (h : (c :: cs) <:+: l) (hc : p c = false) : (c :: cs) <:+: l.dropWhile p := by
  induction l with
  | nil => simp at h
  | cons x xs ih =>
    rw [List.dropWhile_cons]
    by_cases hpx : p x = true
    · rw [if_pos hpx]
      rcases List.infix_cons_iff.mp h with hpre | hinf
      · obtain ⟨hcx, -⟩ := List.cons_prefix_cons.mp hpre
        rw [← hcx] at hpx
        rw [hc] at hpx
        cases hpx
      · exact ih hinf
    · rw [if_neg hpx]
      exact h

/-- A needle whose first and last characters are not whitespace survives
Python `.strip()` on the haystack. -/
theorem infix_pyStrip {kw l : List Char} (h : kw <:+: l)
    (hhead : ∃ c, kw.head? = some c ∧ c.isWhitespace = false)
    (hlast : ∃ d, kw.getLast? = some d ∧ d.isWhitespace = false) :
    kw <:+: pyStrip l := by
  obtain ⟨c, hc1, hc2⟩ := hhead
  obtain ⟨d, hd1, hd2⟩ := hlast
  rcases kw with - | ⟨a, as⟩
  · simp at hc1
  have hac : a = c := by simpa using hc1
  subst hac
  have step1 : (a :: as) <:+: l.dropWhile Char.isWhitespace :=
    infix_dropWhile_of_head _ h hc2
  have step2 : (a :: as).reverse <:+: (l.dropWhile Char.isWhitespace).reverse :=
    List.reverse_infix.mpr step1
  have hdrev : ((a :: as).reverse).head? = some d := by
    rw [List.head?_reverse]
    exact hd1
  rcases hrev : (a :: as).reverse with - | ⟨b, bs⟩
  · simp [hrev] at hdrev
  have hbd : b = d := by
    rw [hrev] at hdrev
    simpa using hdrev
  subst hbd
  rw [hrev] at step2
  have step3 : (b :: bs) <:+:
      ((l.dropWhile Char.isWhitespace).reverse).dropWhile Char.isWhitespace :=
    infix_dropWhile_of_head _ step2 hd2
  have step4 := List.reverse_infix.mpr step3
  rw [← hrev, List.reverse_reverse] at step4
  exact step4

theorem allTokens_good :
    (legal_keywords ++ legal_patterns ++ legal_question_starts).all
      (fun s => goodToken s.data) = true := by decide

theorem goodToken_spec {k : List Char} (h : goodToken k = true) :
    (∃ c, k.head? = some c ∧ c.isWhitespace = false)
    ∧ (∃ d, k.getLast? = some d ∧ d.isWhitespace = false)
    ∧ 3 ≤ k.countP (fun ch => !ch.isWhitespace) := by
  unfold goodToken at h
  split at h
  next c d hc hd =>
    simp only [Bool.and_eq_true, Bool.not_eq_true', decide_eq_true_eq] at h
    exact ⟨⟨c, hc, h.1.1⟩, ⟨d, hd, h.1.2⟩, h.2⟩
  next => cases h

theorem goodToken_of_mem {s : String}
    (hs : s ∈ legal_keywords ++ legal_patterns ++ legal_question_starts) :
    goodToken s.data = true :=
  List.all_eq_true.mp allTokens_good s hs

/-- An occurrence anywhere in the lowered text survives normalisation and
forces the length guard to pass. -/
theorem token_in_normalized {question kw : String}
    (hgood : goodToken kw.data = true)
    (hsub : containsList kw.data (pyLower question.data) = true) :
    containsList kw.data (pyStrip (pyLower question.data)) = true
    ∧ ¬(question.data.isEmpty ∨ (pyStrip question.data).length < 3) := by
  obtain ⟨hhead, hlast, hcount⟩ := goodToken_spec hgood
  have hinfix : kw.data <:+: pyLower question.data := (containsList_iff _ _).mp hsub
  have hinfix2 : kw.data <:+: pyStrip (pyLower question.data) :=
    infix_pyStrip hinfix hhead hlast
  have hlen3 : 3 ≤ (pyStrip question.data).length := by
    have h1 : kw.data.length ≤ (pyStrip (pyLower question.data)).length :=
      hinfix2.sublist.length_le
    have h2 : kw.data.countP (fun ch => !ch.isWhitespace) ≤ kw.data.length :=
      List.countP_le_length _
    rw [length_pyStrip_pyLower] at h1
    omega
  refine ⟨(containsList_iff _ _).mpr hinfix2, ?_⟩
  rintro (hemp | hshort)
  · have : question.data = [] := by simpa using hemp
    rw [this] at hlen3
    simp [pyStrip] at hlen3
  · omega

/-- C1: for every string that contains, case-insensitively, one of the
fixed legal-domain keywords as a substring anywhere, `is_legal_question`
returns true. -/
theorem C1_keyword_substring_accepted (question kw : String)
    (hmem : kw ∈ legal_keywords)
    (hsub : containsList kw.data (pyLower question.data) = true) :
    is_legal_question question = true := by
  have hgood : goodToken kw.data = true :=
    goodToken_of_mem (by simp [hmem])
  obtain ⟨hsub2, hguard⟩ := token_in_normalized hgood hsub
  unfold is_legal_question
  rw [if_neg hguard]
  have hany : legal_keywords.any
      (fun k => containsList k.data (pyStrip (pyLower question.data))) = true :=
    List.any_eq_true.mpr ⟨kw, hmem, hsub2⟩
  simp [hany]

theorem C1_witness :
    ("contract" ∈ legal_keywords)
    ∧ containsList "contract".data (pyLower "I have a Contract dispute".data) = true
    ∧ is_legal_question "I have a Contract dispute" = true :=
  ⟨by decide, by decide,
    C1_keyword_substring_accepted "I have a Contract dispute" "contract"
      (by decide) (by decide)⟩

/-- C2: a string whose lowercased, trimmed form contains no keyword, no
phrase, and starts with no opener is rejected by `is_legal_question`. -/
theorem C2_no_match_rejected (question : String)
    (h1 : legal_keywords.all
      (fun k => !(containsList k.data (pyStrip (pyLower question.data)))) = true)
    (h2 : legal_patterns.all
      (fun p => !(containsList p.data (pyStrip (pyLower question.data)))) = true)
    (h3 : legal_question_starts.all
      (fun s => !(startsWithList s.data (pyStrip (pyLower question.data)))) = true) :
    is_legal_question question = false := by
  unfold is_legal_question
  by_cases hg : (question.data.isEmpty ∨ (pyStrip question.data).length < 3)
  · rw [if_pos hg]
  · rw [if_neg hg]
    have ha1 : legal_keywords.any
        (fun k => containsList k.data (pyStrip (pyLower question.data))) = false := by
      rw [List.any_eq_false]
      intro k hk
      have := List.all_eq_true.mp h1 k hk
      simpa using this
    have ha2 : legal_patterns.any
        (fun p => containsList p.data (pyStrip (pyLower question.data))) = false := by
      rw [List.any_eq_false]
      intro p hp
      have := List.all_eq_true.mp h2 p hp
      simpa using this
    have ha3 : legal_question_starts.any
        (fun s => startsWithList s.data (pyStrip (pyLower question.data))) = false := by
      rw [List.any_eq_false]
      intro s hs
      have := List.all_eq_true.mp h3 s hs
      simpa using this
    simp [ha1, ha2, ha3]

theorem C2_witness :
    legal_keywords.all
      (fun k => !(containsList k.data
        (pyStrip (pyLower "whats a good recipe for pasta".data)))) = true
    ∧ is_legal_question "whats a good recipe for pasta" = false :=
  ⟨by decide,
    C2_no_match_rejected "whats a good recipe for pasta"
      (by decide) (by decide) (by decide)⟩

/-- C3: a string with fewer than 3 non-whitespace characters is rejected
by `is_legal_question`, whichever of the guard readings applies: no
keyword, phrase, or opener can occur in such a string, since each of them
has at least 3 non-whitespace characters. -/
theorem C3_short_input_rejected (question : String)
    (h : question.data.countP (fun c => !c.isWhitespace) < 3) :
    is_legal_question question = false := by
  unfold is_legal_question
  by_cases hg : (question.data.isEmpty ∨ (pyStrip question.data).length < 3)
  · rw [if_pos hg]
  · rw [if_neg hg]
    have hql : (pyStrip (pyLower question.data)).countP (fun c => !c.isWhitespace) < 3 := by
      have hle := countP_pyStrip_le (fun c => !c.isWhitespace) (pyLower question.data)
      rw [countP_nonWs_pyLower] at hle
      omega
    have hnone : ∀ s : String,
        s ∈ legal_keywords ++ legal_patterns ++ legal_question_starts →
        containsList s.data (pyStrip (pyLower question.data)) = false := by
      intro s hs
      by_contra hcon
      rw [Bool.not_eq_false] at hcon
      have hinf := (containsList_iff _ _).mp hcon
      have hcnt := (goodToken_spec (goodToken_of_mem hs)).2.2
      have hmono : s.data.countP (fun c => !c.isWhitespace)
          ≤ (pyStrip (pyLower question.data)).countP (fun c => !c.isWhitespace) :=
        List.Sublist.countP_le _ hinf.sublist
      omega
    have ha1 : legal_keywords.any
        (fun k => containsList k.data (pyStrip (pyLower question.data))) = false := by
      rw [List.any_eq_false]
      intro k hk
      simp [hnone k (by simp [hk])]
    have ha2 : legal_patterns.any
        (fun p => containsList p.data (pyStrip (pyLower question.data))) = false := by
      rw [List.any_eq_false]
      intro p hp
      simp [hnone p (by simp [hp])]
    have ha3 : legal_question_starts.any
        (fun s => startsWithList s.data (pyStrip (pyLower question.data))) = false := by
      rw [List.any_eq_false]
      intro s hs
      intro hcon
      have hpre := (startsWithList_iff _ _).mp hcon
      have : containsList s.data (pyStrip (pyLower question.data)) = true :=
        (containsList_iff _ _).mpr hpre.isInfix
      rw [hnone s (by simp [hs])] at this
      cases this
    simp [ha1, ha2, ha3]

theorem C3_witness :
    ("a b".data.countP (fun c => !c.isWhitespace) < 3)
    ∧ is_legal_question "a b" = false :=
  ⟨by decide, C3_short_input_rejected "a b" (by decide)⟩

/-- C4: a string whose lowercased, trimmed form starts with one of the
fixed question-opener phrases is accepted by `is_legal_question`, whether
or not any keyword matches elsewhere. -/
theorem C4_opener_accepted (question s : String)
    (hmem : s ∈ legal_question_starts)
    (hpre : startsWithList s.data (pyStrip (pyLower question.data)) = true) :
    is_legal_question question = true := by
  have hgood : goodToken s.data = true :=
    goodToken_of_mem (by simp [hmem])
  obtain ⟨-, -, hcount⟩ := goodToken_spec hgood
  have hpre' := (startsWithList_iff _ _).mp hpre
  have hguard : ¬(question.data.isEmpty ∨ (pyStrip question.data).length < 3) := by
    have h1 : s.data.length ≤ (pyStrip (pyLower question.data)).length :=
      hpre'.sublist.length_le
    have h2 : s.data.countP (fun ch => !ch.isWhitespace) ≤ s.data.length :=
      List.countP_le_length _
    rw [length_pyStrip_pyLower] at h1
    rintro (hemp | hshort)
    · have hq : question.data = [] := by simpa using hemp
      have h0 : (pyStrip ([] : List Char)).length = 0 := rfl
      rw [hq, h0] at h1
      omega
    · omega
  unfold is_legal_question
  rw [if_neg hguard]
  have hany : legal_question_starts.any
      (fun t => startsWithList t.data (pyStrip (pyLower question.data))) = true :=
    List.any_eq_true.mpr ⟨s, hmem, hpre⟩
  simp [hany]

theorem C4_witness :
    ("under which section" ∈ legal_question_starts)
    ∧ startsWithList "under which section".data
        (pyStrip (pyLower "  Under which SECTION is this offense  ".data)) = true
    ∧ is_legal_question "  Under which SECTION is this offense  " = true :=
  ⟨by decide, by decide,
    C4_opener_accepted "  Under which SECTION is this offense  "
      "under which section" (by decide) (by decide)⟩

theorem chat_filter_save (db : ChatDB) (u rl X : String) (b : Bool) (T : String) :
    (save_chat_message db u rl X b T).history.filter
        (fun r => r.conversation_id == X)
      = db.history.filter (fun r => r.conversation_id == X)
        ++ [⟨u, rl, X, db.clock, b, T⟩] := by
  unfold save_chat_message
  rw [List.filter_append]
  simp

/-- C5: the save/load round-trip.  Writing a history entry for
conversation id `X` with text `T` and user flag `true` makes
`load_messages_by_conversation_id X` return exactly the previously loaded
messages followed by the new `{role := "user", content := T}` entry, and
well-formedness of the store is preserved. -/
theorem C5_save_load_roundtrip (db : ChatDB) (hwf : db.WF) (u rl X T : String) :
    load_messages_by_conversation_id (save_chat_message db u rl X true T) X
      = load_messages_by_conversation_id db X ++ [⟨"user", T⟩]
    ∧ (save_chat_message db u rl X true T).WF := by
  obtain ⟨hclock, hsorted⟩ := hwf
  have hfsorted : (db.history.filter (fun r => r.conversation_id == X)).Pairwise
      (fun a b => a.timestamp ≤ b.timestamp) :=
    List.Pairwise.sublist (List.filter_sublist _) hsorted
  constructor
  · unfold load_messages_by_conversation_id
    rw [chat_filter_save]
    have hpw : (db.history.filter (fun r => r.conversation_id == X)
        ++ [(⟨u, rl, X, db.clock, true, T⟩ : HistoryRow)]).Pairwise
        (fun a b => decide (a.timestamp ≤ b.timestamp) = true) := by
      rw [List.pairwise_append]
      refine ⟨List.Pairwise.imp (fun h => by simpa using h) hfsorted, by simp, ?_⟩
      intro a ha b hb
      have ha' : a ∈ db.history := List.mem_of_mem_filter ha
      have hb' : b.timestamp = db.clock := by
        simp at hb
        rw [hb]
      simp [hb']
      exact hclock a ha'
    rw [List.mergeSort_of_sorted hpw]
    have hpw2 : (db.history.filter (fun r => r.conversation_id == X)).Pairwise
        (fun a b => decide (a.timestamp ≤ b.timestamp) = true) :=
      List.Pairwise.imp (fun h => by simpa using h) hfsorted
    rw [List.mergeSort_of_sorted hpw2]
    simp
  · constructor
    · intro r hr
      unfold save_chat_message at hr
      simp at hr
      rcases hr with hr | hr
      · exact hclock r hr
      · rw [hr]
        exact Nat.le_refl _
    · show (db.history ++ [(⟨u, rl, X, db.clock, true, T⟩ : HistoryRow)]).Pairwise
        (fun a b => a.timestamp ≤ b.timestamp)
      rw [List.pairwise_append]
      refine ⟨hsorted, by simp, ?_⟩
      intro a ha b hb
      simp at hb
      rw [hb]
      exact hclock a ha

theorem C5_witness :
    (ChatDB.WF ⟨[], 0⟩)
    ∧ load_messages_by_conversation_id
        (save_chat_message ⟨[], 0⟩ "alice" "lawyer" "conv1" true "hello") "conv1"
      = [⟨"user", "hello"⟩] :=
  ⟨⟨by simp, by simp⟩, by
    have h := C5_save_load_roundtrip ⟨[], 0⟩ ⟨by simp, by simp⟩ "alice" "lawyer" "conv1" "hello"
    rw [h.1]
    simp [load_messages_by_conversation_id]⟩

/-- C10: registration/login round trip.  (i) If the username is free,
`register_user` succeeds and a subsequent `login_user` with the same
credentials returns exactly `(role, email)`.  (ii) `login_user` returns
no result whenever no stored row carries the username together with the
SHA-256 hex digest of the supplied password. -/
theorem C10_register_login_roundtrip :
    (∀ (db : UsersDB) (username password role : String) (email : Option String),
      db.users.all (fun u => !(u.username == username)) = true →
        (register_user db username password role email).2 = true
        ∧ login_user (register_user db username password role email).1 username password
            = some (role, email))
    ∧ (∀ (db : UsersDB) (username password : String),
      (∀ u ∈ db.users, u.username = username → u.password ≠ make_hash password) →
        login_user db username password = none) := by
  constructor
  · intro db username password role email hfree
    have hany : db.users.any (fun u => u.username == username) = false := by
      rw [List.any_eq_false]
      intro u hu
      have := List.all_eq_true.mp hfree u hu
      simpa using this
    have hnotin : (register_user db username password role email)
        = ({ users := db.users ++ [⟨username, make_hash password, role, email⟩] }, true) := by
      unfold register_user
      rw [hany]
      simp
    rw [hnotin]
    refine ⟨rfl, ?_⟩
    unfold login_user
    have hfind1 : db.users.find?
        (fun u => u.username == username && u.password == make_hash password) = none := by
      rw [List.find?_eq_none]
      intro u hu
      have := List.all_eq_true.mp hfree u hu
      simp at this
      simp [this]
    rw [List.find?_append, hfind1]
    simp [List.find?]
  · intro db username password hno
    unfold login_user
    have hfind : db.users.find?
        (fun u => u.username == username && u.password == make_hash password) = none := by
      rw [List.find?_eq_none]
      intro u hu
      simp only [Bool.and_eq_true, beq_iff_eq]
      rintro ⟨h1, h2⟩
      exact hno u hu h1 h2
    rw [hfind]
    rfl

theorem C10_witness :
    ((UsersDB.mk []).users.all (fun u => !(u.username == "alice")) = true
      ∧ login_user
          (register_user (UsersDB.mk []) "alice" "pw123" "lawyer" (some "alice@example.com")).1
          "alice" "pw123"
        = some ("lawyer", some "alice@example.com"))
    ∧ login_user (UsersDB.mk []) "bob" "pw123" = none :=
  ⟨⟨rfl,
    (C10_register_login_roundtrip.1 (UsersDB.mk []) "alice" "pw123" "lawyer"
      (some "alice@example.com") rfl).2⟩,
    C10_register_login_roundtrip.2 (UsersDB.mk []) "bob" "pw123" (by simp)⟩

theorem send_email_spec (cfg : SmtpConfig) (o : SmtpOutcome) (log : List EmailLogEntry)
    (to_email subject body : String) :
    send_email cfg o log to_email subject body
      = (true, log ++ [⟨to_email, subject, body⟩]) := by
  unfold send_email
  split
  · rfl
  · cases o <;> rfl

/-- C6: `send_reminder_emails` reports success and appends exactly two
entries to the local log, for every configuration and transport outcome —
in particular both in simulation mode (no SMTP credentials) and when the
SMTP transport raises during submission. -/
theorem C6_reminder_emails_succeed (cfg : SmtpConfig) (o1 o2 : SmtpOutcome)
    (log : List EmailLogEntry)
    (case_number client_email lawyer_email deadline_str reminder_message : String) :
    (send_reminder_emails cfg o1 o2 log case_number client_email lawyer_email
        deadline_str reminder_message).1 = true
    ∧ ∃ e1 e2, (send_reminder_emails cfg o1 o2 log case_number client_email lawyer_email
        deadline_str reminder_message).2 = log ++ [e1, e2] := by
  refine ⟨?_, ?_⟩ <;> simp only [send_reminder_emails, send_email_spec]
  · rfl
  · exact ⟨_, _, List.append_assoc log _ _⟩

/-- C7: with no OCR credential and local extraction yielding the empty
string (and raising nothing), `extract_text_from_pdf` returns the empty
string; the embedding is a total function, mirroring the `try/except`
that keeps any exception from propagating to the caller. -/
theorem C7_empty_extraction_returns_empty (ocr_api_key : Option String)
    (pages : List PageRead) (ocr_text : String)
    (hocr : truthyEnv ocr_api_key = false)
    (hloc : runPages pages "" = ("", false)) :
    extract_text_from_pdf ocr_api_key pages ocr_text = "" := by
  unfold extract_text_from_pdf
  rw [hloc]
  simp [hocr]

theorem C7_witness :
    truthyEnv none = false
    ∧ runPages [PageRead.text none, PageRead.text (some "")] "" = ("", false)
    ∧ extract_text_from_pdf none [PageRead.text none, PageRead.text (some "")] "ocr output" = "" :=
  ⟨rfl, rfl,
    C7_empty_extraction_returns_empty none [PageRead.text none, PageRead.text (some "")]
      "ocr output" rfl rfl⟩

/-- C8: `ask_groq` tries the fixed ordered model list and returns the
first successful result; with no client or with every model call failing
it returns `none`, and the chat caller then substitutes exactly the
fallback string as the assistant message. -/
theorem C8_model_fallback (call : String → String → String → Option String)
    (question context_text : String) (r : String) :
    (ask_groq false call question context_text = none)
    ∧ (call "llama-3.1-70b-specdec" question context_text = some r →
        ask_groq true call question context_text = some r)
    ∧ (call "llama-3.1-70b-specdec" question context_text = none →
        ask_groq true call question context_text
          = call "llama-3.1-8b-instant" question context_text)
    ∧ (∀ groq_client : Bool,
        ask_groq groq_client call question context_text = none →
        is_legal_question question = true →
        chat_answer groq_client call question context_text = groq_fallback_message) := by
  refine ⟨rfl, ?_, ?_, ?_⟩
  · intro h1
    show tryModels (fun m => call m question context_text) groq_models = some r
    simp only [groq_models, tryModels]
    rw [h1]
  · intro h1
    show tryModels (fun m => call m question context_text) groq_models
      = call "llama-3.1-8b-instant" question context_text
    simp only [groq_models, tryModels]
    rw [h1]
    cases h2 : call "llama-3.1-8b-instant" question context_text <;> simp [h2]
  · intro groq_client hnone hlegal
    unfold chat_answer
    rw [hlegal, hnone]
    rfl

theorem C8_witness :
    ((fun _ _ _ => (none : Option String)) "llama-3.1-70b-specdec" "is it legal to record a call" "Legal context" = none)
    ∧ is_legal_question "is it legal to record a call" = true
    ∧ chat_answer true (fun _ _ _ => none) "is it legal to record a call" "Legal context"
        = groq_fallback_message :=
  ⟨rfl, by decide,
    (C8_model_fallback (fun _ _ _ => none) "is it legal to record a call" "Legal context" "").2.2.2
      true rfl (by decide)⟩

/-- C9: `search_ipc_sections` returns an empty list when the store failed
to initialise, when the query is empty or whitespace-only, and when the
similarity search fails; the embedding is a total function, mirroring the
`try/except` that keeps any search exception from reaching the caller. -/
theorem C9_search_failure_empty (query : String) (top_k : Nat) :
    (search_ipc_sections none query top_k = [])
    ∧ (∀ vector_db, (pyStrip query.data).isEmpty = true →
        search_ipc_sections vector_db query top_k = [])
    ∧ (∀ db e, db query top_k = Except.error e →
        search_ipc_sections (some db) query top_k = []) := by
  refine ⟨rfl, ?_, ?_⟩
  · intro vector_db hempty
    cases vector_db with
    | none => rfl
    | some db => simp [search_ipc_sections, hempty]
  · intro db e herr
    simp only [search_ipc_sections]
    by_cases hq : (pyStrip query.data).isEmpty = true
    · simp [hq]
    · simp [hq, herr]

theorem C9_witness :
    (search_ipc_sections none "theft" 3 = [])
    ∧ ((pyStrip "   ".data).isEmpty = true
        ∧ search_ipc_sections (some (fun _ _ => Except.ok [])) "   " 3 = [])
    ∧ ((fun (_ : String) (_ : Nat) =>
          (Except.error "boom" : Except String (List IPCDoc))) "theft" 3
        = Except.error "boom"
        ∧ search_ipc_sections (some (fun _ _ => Except.error "boom")) "theft" 3 = []) :=
  ⟨(C9_search_failure_empty "theft" 3).1,
   ⟨rfl, (C9_search_failure_empty "   " 3).2.1 (some (fun _ _ => Except.ok [])) rfl⟩,
   ⟨rfl, (C9_search_failure_empty "theft" 3).2.2 (fun _ _ => Except.error "boom") "boom" rfl⟩⟩
